import Mathlib

/-!
Verification of the lunpetshop conversational-agent backend.

This file is a shallow embedding, in Lean 4, of the Python sources of the
repository (`backend/src/utils.py`, `backend/src/chatbot.py`,
`backend/src/knowledge_base.py`, `backend/src/metrics.py`,
`backend/src/api.py`, `backend/src/woocommerce.py`,
`backend/src/woocommerce_tools.py`, `backend/scripts/sync_products.py`),
together with theorems settling the frozen claims about that code.

Modelling conventions:
* Python strings become `String`; `needle in haystack` becomes `pyIn`
  (substring containment on the character lists).
* `str.lower()` becomes `pyLower`, a per-character simple case mapping
  (CPython additionally applies Unicode special casing, which none of the
  inputs exercised by the claims rely on).
* Network and LLM calls are passed in as explicit oracles
  (`Except String α` values or functions producing them); a raised Python
  exception is the `.error` case carrying the exception text.
* Mutable module state (the knowledge-base memo, the metrics collector)
  becomes explicit state values passed to the functions.
-/

namespace LunPetShop

/-! ## String helpers (Python primitives) -/

/-- Substring containment on character lists: `n` occurs contiguously in
`h`. Written as a structural recursion so that concrete instances reduce. -/
def listContainsSub (n : List Char) : List Char → Bool
  | [] => n.isPrefixOf []
  | c :: t => n.isPrefixOf (c :: t) || listContainsSub n t

/-- Python's `needle in haystack` for strings: substring containment. -/
def pyIn (needle haystack : String) : Bool :=
  listContainsSub needle.toList haystack.toList

/-- Python's `str.lower()`, as a per-character map over the string's
characters (simple case mapping; written over the character list so that
concrete instances reduce in the kernel). -/
def pyLower (s : String) : String := String.mk (s.data.map Char.toLower)

/-- Whitespace tokenization (split on the space character), used only to
state side conditions of claims ("no Vietnamese word occurs as a
standalone word"). -/
def spaceTokens (s : String) : List String :=
  (s.data.splitOn ' ').map String.mk

/-! ## `backend/src/utils.py` -/

/-- Vietnamese-specific characters from `detect_language` (utils.py line 4). -/
def vietnamese_chars : List String :=
  ["ă", "â", "đ", "ê", "ô", "ơ", "ư", "à", "á", "ạ", "ả", "ã"]

/-- Common Vietnamese words from `detect_language` (utils.py line 5). -/
def vietnamese_words : List String :=
  ["xin", "chào", "sản phẩm", "mèo", "chó", "gì", "của", "có", "thể", "cho"]

/-- `detect_language` (utils.py lines 1-20): lowercase the text, return
"vi" on the first Vietnamese character or word found by substring
containment, else "en". -/
def detect_language (text : String) : String :=
  let text_lower := pyLower text
  if vietnamese_chars.any (fun c => pyIn c text_lower) then "vi"
  else if vietnamese_words.any (fun w => pyIn w text_lower) then "vi"
  else "en"

/-- Cat keyword lists from `classify_intent` (utils.py lines 28-29). -/
def cat_keywords_vi : List String := ["mèo", "cat", "kitty", "kitten", "cho mèo"]

def cat_keywords_en : List String := ["cat", "kitty", "kitten", "feline"]

/-- Dog keyword lists from `classify_intent` (utils.py lines 32-33). -/
def dog_keywords_vi : List String := ["chó", "dog", "cún", "puppy", "cho chó"]

def dog_keywords_en : List String := ["dog", "puppy", "canine", "pup"]

/-- Business keyword lists from `classify_intent` (utils.py lines 36-37). -/
def business_keywords_vi : List String :=
  ["cửa hàng", "shop", "giới thiệu", "về", "business", "dịch vụ"]

def business_keywords_en : List String :=
  ["about", "business", "store", "shop", "service"]

/-- Contact keyword lists from `classify_intent` (utils.py lines 40-41). -/
def contact_keywords_vi : List String :=
  ["liên hệ", "địa chỉ", "zalo", "phone", "facebook", "contact", "address"]

def contact_keywords_en : List String :=
  ["contact", "address", "phone", "zalo", "facebook", "reach"]

/-- Product-search keyword lists from `classify_intent` (utils.py lines 45-54). -/
def product_search_keywords_vi : List String :=
  ["giá", "price", "còn", "kho", "stock", "tìm kiếm", "search",
   "show me", "cho tôi xem", "hiển thị", "danh sách", "list",
   "loại nào", "dưới", "under", "rẻ", "cheap", "đắt", "expensive"]

def product_search_keywords_en : List String :=
  ["price", "cost", "show me", "find", "search", "what", "which", "list",
   "have", "stock", "available", "under", "below", "cheap", "expensive",
   "products", "items"]

/-- `classify_intent` (utils.py lines 23-91): lowercase the text, then test
keyword sets in fixed order: cat (with a product-search sub-check), dog
(same sub-check), bare product-search, contact, business, default
"general". Cat/dog lists depend on the language tag; the other checks use
the union of both languages' lists. -/
def classify_intent (text : String) (language : String) : String :=
  let text_lower := pyLower text
  let cat_keywords := if language = "vi" then cat_keywords_vi else cat_keywords_en
  if cat_keywords.any (fun k => pyIn k text_lower) then
    let product_search_keywords := product_search_keywords_vi ++ product_search_keywords_en
    if product_search_keywords.any (fun k => pyIn k text_lower) then "product_search"
    else "cat_products"
  else
    let dog_keywords := if language = "vi" then dog_keywords_vi else dog_keywords_en
    if dog_keywords.any (fun k => pyIn k text_lower) then
      let product_search_keywords := product_search_keywords_vi ++ product_search_keywords_en
      if product_search_keywords.any (fun k => pyIn k text_lower) then "product_search"
      else "dog_products"
    else
      let product_search_keywords := product_search_keywords_vi ++ product_search_keywords_en
      if product_search_keywords.any (fun k => pyIn k text_lower) then "product_search"
      else
        let contact_keywords := contact_keywords_vi ++ contact_keywords_en
        if contact_keywords.any (fun k => pyIn k text_lower) then "contact"
        else
          let business_keywords := business_keywords_vi ++ business_keywords_en
          if business_keywords.any (fun k => pyIn k text_lower) then "business"
          else "general"

/-! ## `backend/src/knowledge_base.py` -/

/-- `BUSINESS_INFO` (knowledge_base.py lines 22-32). -/
structure BusinessInfo where
  name : String
  tagline : String
  tagline_en : String
  website : String
  address : String
  phone : String
  zalo : String
  facebook : String
  hours : String
deriving DecidableEq

def BUSINESS_INFO : BusinessInfo where
  name := "Lùn PetShop"
  tagline := "Thức ăn, phụ kiện, spa, lưu trú"
  tagline_en := "Food, accessories, spa, accommodation"
  website := "https://lunpetshop.com/"
  address := "46 Văn Cận, Khuê Trung, Cẩm Lệ, Đà Nẵng 550000, Vietnam"
  phone := "0935005762"
  zalo := "0935005762"
  facebook := "https://www.facebook.com/lunpetshop"
  hours := "8:00 AM – 9:30 PM"

/-- `CATEGORY_NAMES` (knowledge_base.py lines 35-51): internal category
key to (Vietnamese display name, English display name). -/
def CATEGORY_NAMES : List (String × String × String) :=
  [("food", "Thức ăn", "Food"),
   ("pate", "Pate", "Pâté"),
   ("treats", "Ăn vặt Bánh Thưởng", "Treats & Snacks"),
   ("shampoo", "Sữa tắm", "Shampoo"),
   ("litter", "Cát vệ sinh", "Litter"),
   ("toys", "Đồ chơi", "Toys"),
   ("clothing", "Quần áo", "Clothing"),
   ("beds", "Nệm Lót", "Beds"),
   ("leashes", "Vòng Cổ Dây Dắt", "Leashes & Collars"),
   ("supplements", "TP chức năng", "Supplements"),
   ("bowls", "Bát ăn Bình Nước", "Bowls & Feeders"),
   ("hygiene", "Dụng cụ vệ sinh", "Hygiene Tools"),
   ("flea_tick", "Ve Rận", "Flea & Tick Prevention"),
   ("cones", "Loa Vòng chống liếm", "Protective Cones"),
   ("other", "Khác", "Other")]

/-- `CATEGORY_NAMES.get(key, {}).get("vi" / "en", key)`: the display name
in the requested language, falling back to the raw key when unmapped. -/
def categoryDisplayName (key : String) (language : String) : String :=
  match CATEGORY_NAMES.find? (fun e => e.1 = key) with
  | some e => if language = "vi" then e.2.1 else e.2.2
  | none => key

/-- A product entry of the cache document. The seed data and the text
renderers use only the `name` and `price` fields (the sync job writes
further fields — id, url, in_stock, image — which no claim touches). -/
structure SeedProduct where
  name : String
  price : String
deriving DecidableEq

/-- One category bucket of the cache document: a count plus example
products. -/
structure CategoryBucket where
  count : Nat
  products : List SeedProduct
deriving DecidableEq

/-- The three per-pet-type category maps (insertion-ordered dicts). -/
structure CacheCategories where
  cat : List (String × CategoryBucket)
  dog : List (String × CategoryBucket)
  general : List (String × CategoryBucket)
deriving DecidableEq

/-- The product-cache document (`ProductCacheDocument`). -/
structure CacheDoc where
  last_sync : Option String
  total_products : Nat
  sync_status : String
  error_message : Option String := none
  categories : CacheCategories
deriving DecidableEq

/-- `FALLBACK_CAT_PRODUCTS` (knowledge_base.py lines 54-63). -/
def FALLBACK_CAT_PRODUCTS : List (String × CategoryBucket) :=
  [("food", ⟨31, [⟨"Thức ăn hạt GV trộn siêu cấp cho mèo", "80.000 ₫"⟩]⟩),
   ("pate", ⟨29, [⟨"Pate Nekko cho mèo 70g", "16.000 ₫"⟩]⟩),
   ("treats", ⟨25, []⟩),
   ("shampoo", ⟨26, []⟩),
   ("litter", ⟨15, []⟩),
   ("toys", ⟨34, []⟩),
   ("clothing", ⟨35, []⟩),
   ("beds", ⟨15, []⟩)]

/-- `FALLBACK_DOG_PRODUCTS` (knowledge_base.py lines 65-74). -/
def FALLBACK_DOG_PRODUCTS : List (String × CategoryBucket) :=
  [("food", ⟨8, []⟩),
   ("pate", ⟨5, []⟩),
   ("treats", ⟨25, [⟨"Gà viên mix việt quất sấy lạnh 100g", "40.000 ₫"⟩]⟩),
   ("shampoo", ⟨26, []⟩),
   ("toys", ⟨34, []⟩),
   ("clothing", ⟨35, []⟩),
   ("beds", ⟨15, []⟩),
   ("leashes", ⟨56, []⟩)]

/-- `FALLBACK_GENERAL_PRODUCTS` (knowledge_base.py lines 76-82). -/
def FALLBACK_GENERAL_PRODUCTS : List (String × CategoryBucket) :=
  [("supplements", ⟨16, []⟩),
   ("bowls", ⟨29, []⟩),
   ("hygiene", ⟨7, []⟩),
   ("flea_tick", ⟨14, []⟩),
   ("cones", ⟨9, []⟩)]

/-- The built-in fallback document assembled by `load_products_cache`
(knowledge_base.py lines 128-137). -/
def fallback_cache_doc : CacheDoc where
  last_sync := none
  total_products := 0
  sync_status := "fallback"
  categories := ⟨FALLBACK_CAT_PRODUCTS, FALLBACK_DOG_PRODUCTS, FALLBACK_GENERAL_PRODUCTS⟩

/-- The possible outcomes of reading and JSON-parsing the cache file,
passed to `load_products_cache` explicitly (the Python code performs the
file I/O inline). `unreadable` covers both `json.JSONDecodeError` and any
other read exception; `parsed` records whether the `categories` and
`last_sync` keys are present in the parsed document. -/
inductive CacheFileRead where
  | absent
  | unreadable (err : String)
  | parsed (hasCategories hasLastSync : Bool) (doc : CacheDoc)
deriving DecidableEq

/-- `load_products_cache` (knowledge_base.py lines 89-138). The in-memory
memo `_products_cache` and the file-read outcome are explicit arguments;
the function returns the document the Python function returns. On any
file failure (absent, unparseable, missing `categories` or `last_sync`
keys) it substitutes the built-in fallback document. -/
def load_products_cache (memo : Option CacheDoc) (force_reload : Bool)
    (file : CacheFileRead) : CacheDoc :=
  match memo, force_reload with
  | some doc, false => doc
  | _, _ =>
    match file with
    | .parsed true true doc => doc
    | _ => fallback_cache_doc

/-- The per-category block rendered by `get_cat_products_text` /
`get_dog_products_text`: a bullet with display name and count, then up to
3 example products, skipping products with an empty name or price
(Python string truthiness). `unit` is "sản phẩm" or "products". -/
def categoryLines (entries : List (String × CategoryBucket))
    (language : String) (unit : String) : String :=
  String.join (entries.map fun kv =>
    "• **" ++ categoryDisplayName kv.1 language ++ "** - " ++
      toString kv.2.count ++ " " ++ unit ++ "\n" ++
    String.join ((kv.2.products.take 3).map fun p =>
      if p.name ≠ "" ∧ p.price ≠ "" then
        "  - " ++ p.name ++ ": " ++ p.price ++ "\n"
      else ""))

/-- `get_cat_products_text` (knowledge_base.py lines 166-203), reading its
cache from the supplied document. -/
def get_cat_products_text (doc : CacheDoc) (language : String) : String :=
  let cat_products := doc.categories.cat
  if language = "vi" then
    "🐱 **Sản phẩm cho Mèo:**\n\n" ++ categoryLines cat_products "vi" "sản phẩm" ++
      "\n📞 Liên hệ: " ++ BUSINESS_INFO.zalo ++ " (Zalo) để biết thêm chi tiết!"
  else
    "🐱 **Cat Products:**\n\n" ++ categoryLines cat_products "en" "products" ++
      "\n📞 Contact: " ++ BUSINESS_INFO.zalo ++ " (Zalo) for more details!"

/-- `get_dog_products_text` (knowledge_base.py lines 206-242). -/
def get_dog_products_text (doc : CacheDoc) (language : String) : String :=
  let dog_products := doc.categories.dog
  if language = "vi" then
    "🐕 **Sản phẩm cho Chó:**\n\n" ++ categoryLines dog_products "vi" "sản phẩm" ++
      "\n📞 Liên hệ: " ++ BUSINESS_INFO.zalo ++ " (Zalo) để biết thêm chi tiết!"
  else
    "🐕 **Dog Products:**\n\n" ++ categoryLines dog_products "en" "products" ++
      "\n📞 Contact: " ++ BUSINESS_INFO.zalo ++ " (Zalo) for more details!"

/-- `get_business_info_text` (knowledge_base.py lines 278-311). -/
def get_business_info_text (language : String) : String :=
  if language = "vi" then
    "\n🏪 **Thông tin về " ++ BUSINESS_INFO.name ++ "**\n\n📍 **Địa chỉ:** " ++
      BUSINESS_INFO.address ++ "\n\n📞 **Liên hệ:**\n• Phone/Zalo: " ++
      BUSINESS_INFO.zalo ++ "\n• Facebook: " ++ BUSINESS_INFO.facebook ++
      "\n\n🕐 **Giờ mở cửa:** " ++ BUSINESS_INFO.hours ++
      "\n\n🐾 **Dịch vụ:** " ++ BUSINESS_INFO.tagline ++
      "\n\n🌐 **Website:** " ++ BUSINESS_INFO.website ++ "\n"
  else
    "\n🏪 **About " ++ BUSINESS_INFO.name ++ "**\n\n📍 **Address:** " ++
      BUSINESS_INFO.address ++ "\n\n📞 **Contact:**\n• Phone/Zalo: " ++
      BUSINESS_INFO.zalo ++ "\n• Facebook: " ++ BUSINESS_INFO.facebook ++
      "\n\n🕐 **Hours:** " ++ BUSINESS_INFO.hours ++
      "\n\n🐾 **Services:** " ++ BUSINESS_INFO.tagline_en ++
      "\n\n🌐 **Website:** " ++ BUSINESS_INFO.website ++ "\n"

/-- `get_contact_info_text` (knowledge_base.py lines 314-337). -/
def get_contact_info_text (language : String) : String :=
  if language = "vi" then
    "\n📱 **Thông tin Liên hệ:**\n\n• **Zalo:** " ++ BUSINESS_INFO.zalo ++
      "\n• **Phone:** " ++ BUSINESS_INFO.phone ++
      "\n• **Facebook:** " ++ BUSINESS_INFO.facebook ++
      "\n• **Địa chỉ:** " ++ BUSINESS_INFO.address ++
      "\n\nChúng tôi sẵn sàng hỗ trợ bạn từ " ++ BUSINESS_INFO.hours ++
      " mỗi ngày! 🐾\n"
  else
    "\n📱 **Contact Information:**\n\n• **Zalo:** " ++ BUSINESS_INFO.zalo ++
      "\n• **Phone:** " ++ BUSINESS_INFO.phone ++
      "\n• **Facebook:** " ++ BUSINESS_INFO.facebook ++
      "\n• **Address:** " ++ BUSINESS_INFO.address ++
      "\n\nWe're here to help you from " ++ BUSINESS_INFO.hours ++
      " every day! 🐾\n"

/-! ## `backend/src/prompts.py` -/

/-- `get_system_prompt` (prompts.py lines 3-96): the bilingual persona
prompt, a pure function of `BUSINESS_INFO`. -/
def get_system_prompt (language : String) : String :=
  if language = "vi" then
    "Bạn là KittyCat 🐱, trợ lý AI thân thiện của " ++
    BUSINESS_INFO.name ++
    ".\n\nVề bạn:\n- Tên: KittyCat\n- Vai trò: Trợ lý AI cá nhân cho " ++
    BUSINESS_INFO.name ++
    "\n- Tính cách: Thân thiện, nhiệt tình, am hiểu về thú cưng\n\nNhiệm vụ của bạn:\n1. Trả lời câu hỏi về sản phẩm cho mèo và chó\n2. Cung cấp thông tin về cửa hàng\n3. Hỗ trợ khách hàng tìm sản phẩm phù hợp\n4. Cung cấp thông tin liên hệ\n\nCông cụ tìm kiếm sản phẩm:\nBạn có quyền truy cập vào các công cụ để tìm kiếm sản phẩm thực tế từ cửa hàng:\n- search_products_tool: Tìm kiếm sản phẩm theo tên hoặc mô tả\n- get_products_by_category_tool: Lấy sản phẩm theo danh mục (hỗ trợ tiếng Việt và tiếng Anh)\n- get_product_details_tool: Lấy thông tin chi tiết về một sản phẩm cụ thể\n\nKhi nào sử dụng công cụ:\n- Khi khách hàng hỏi về sản phẩm cụ thể (ví dụ: \"có pate nào không?\", \"giá của sản phẩm X\")\n- Khi khách hàng muốn tìm sản phẩm theo danh mục (ví dụ: \"thức ăn cho mèo\", \"quần áo cho chó\")\n- Khi khách hàng hỏi về giá, tồn kho, hoặc thông tin chi tiết sản phẩm\n- Khi khách hàng muốn tìm sản phẩm dưới một mức giá nhất định\n\nKhi nào KHÔNG sử dụng công cụ:\n- Câu hỏi chung về các loại sản phẩm (ví dụ: \"bạn có sản phẩm gì cho mèo?\") - dùng kiến thức chung\n- Câu hỏi về thông tin cửa hàng, địa chỉ, giờ mở cửa\n- Câu hỏi về dịch vụ, tư vấn chung về thú cưng\n\nHướng dẫn:\n- Luôn thân thiện và hữu ích\n- Trả lời ngắn gọn, dễ hiểu\n- Sử dụng emoji 🐱 🐕 🐾 khi phù hợp\n- Khi sử dụng công cụ, hãy trình bày kết quả một cách tự nhiên và hữu ích\n- Nếu không chắc chắn, gợi ý khách hàng liên hệ qua Zalo: " ++
    BUSINESS_INFO.zalo ++
    "\n\nThông tin cửa hàng:\n- Tên: " ++
    BUSINESS_INFO.name ++
    "\n- Địa chỉ: " ++
    BUSINESS_INFO.address ++
    "\n- Zalo/Phone: " ++
    BUSINESS_INFO.zalo ++
    "\n- Facebook: " ++
    BUSINESS_INFO.facebook ++
    "\n- Giờ mở cửa: " ++
    BUSINESS_INFO.hours ++
    "\n- Dịch vụ: " ++
    BUSINESS_INFO.tagline ++
    "\n"
  else
    "You are KittyCat 🐱, the friendly AI assistant for " ++
    BUSINESS_INFO.name ++
    ".\n\nAbout you:\n- Name: KittyCat\n- Role: Personal AI assistant for " ++
    BUSINESS_INFO.name ++
    "\n- Personality: Friendly, helpful, knowledgeable about pets\n\nYour tasks:\n1. Answer questions about cat and dog products\n2. Provide business information\n3. Help customers find suitable products\n4. Provide contact information\n\nProduct Search Tools:\nYou have access to tools to search for real products from the store:\n- search_products_tool: Search for products by name or description\n- get_products_by_category_tool: Get products by category (supports Vietnamese and English)\n- get_product_details_tool: Get detailed information about a specific product\n\nWhen to use tools:\n- When customer asks about specific products (e.g., \"do you have pate?\", \"price of product X\")\n- When customer wants to find products by category (e.g., \"cat food\", \"dog clothing\")\n- When customer asks about prices, stock availability, or product details\n- When customer wants to find products under a certain price\n\nWhen NOT to use tools:\n- General questions about product types (e.g., \"what products do you have for cats?\") - use general knowledge\n- Questions about store information, address, hours\n- Questions about services, general pet care advice\n\nGuidelines:\n- Always be friendly and helpful\n- Keep responses concise and clear\n- Use emojis 🐱 🐕 🐾 when appropriate\n- When using tools, present results naturally and helpfully\n- If unsure, suggest customers contact via Zalo: " ++
    BUSINESS_INFO.zalo ++
    "\n\nStore information:\n- Name: " ++
    BUSINESS_INFO.name ++
    "\n- Address: " ++
    BUSINESS_INFO.address ++
    "\n- Zalo/Phone: " ++
    BUSINESS_INFO.zalo ++
    "\n- Facebook: " ++
    BUSINESS_INFO.facebook ++
    "\n- Hours: " ++
    BUSINESS_INFO.hours ++
    "\n- Services: " ++
    BUSINESS_INFO.tagline_en ++
    "\n"

/-! ## `backend/src/chatbot.py` -/

/-- Message roles of the conversation transcript (`HumanMessage`,
`AIMessage`, `SystemMessage`, `ToolMessage`). -/
inductive Role where
  | human
  | ai
  | system
  | tool
deriving DecidableEq

/-- One transcript message; `tool_call_id` is set only on tool-result
messages. -/
structure Msg where
  role : Role
  content : String
  tool_call_id : Option String := none
deriving DecidableEq

/-- One tool-call request in an LLM response. The code tolerates both
mapping-shaped and attribute-shaped descriptors and reads `name` /
`args` / `id` from either; `args` is kept opaque here (the argument
dictionary rendered as a string). -/
structure ToolCall where
  name : Option String
  args : String
  id : Option String
deriving DecidableEq

/-- An LLM response: text content plus requested tool calls
(`tool_calls` is always present on the client's response object). -/
structure LlmResponse where
  content : String
  tool_calls : List ToolCall
deriving DecidableEq

/-- `ChatbotState` (chatbot.py lines 24-27): transcript, language
(default "vi"), and the test-only `forced_intent`. -/
structure ChatbotState where
  messages : List Msg
  language : String := "vi"
  forced_intent : Option String := none

/-- The external effects `chatbot_node` can trigger, as oracles: whether
`get_llm` returns a client (`XAI_API_KEY` present and construction
succeeded), the two `llm.invoke` calls (first: full response with tool
calls; second: final content), and tool execution
(`tool_map[tool_name].invoke(tool_args)`). An `.error` value is a raised
Python exception carrying the exception text. -/
structure LlmEnv where
  llm_available : Bool
  invoke1 : List Msg → Except String LlmResponse
  invoke2 : List Msg → Except String String
  run_tool : String → String → Except String String

/-- The constant configuration `get_llm` (chatbot.py lines 175-209)
passes to the chat-completion client constructor. -/
structure LlmConfig where
  model : String
  base_url : String
  temperature : ℚ
  max_tokens : Nat
deriving DecidableEq

/-- `get_llm`'s construction decision (chatbot.py lines 175-209): absent
without an API key; otherwise the `ChatOpenAI` configuration — model
"grok-4-fast-non-reasoning", base URL https://api.x.ai/v1, temperature
0.7, max_tokens 500 — unless construction raises (caught; absent).
Tool binding (`llm.bind_tools(tools)`) leaves the configuration
unchanged and is tracked by `chatbot_node` itself. -/
def get_llm_config (api_key_present : Bool) (construction_ok : Bool) :
    Option LlmConfig :=
  if api_key_present = false then none
  else if construction_ok then
    some ⟨"grok-4-fast-non-reasoning", "https://api.x.ai/v1", 7/10, 500⟩
  else none

/-- The three tool adapters bound for tool-using intents
(chatbot.py lines 76-80), by their registered tool names. -/
def chatbot_tool_names : List String :=
  ["search_products_tool", "get_products_by_category_tool", "get_product_details_tool"]

/-- The fixed no-LLM fallback reply (chatbot.py lines 86-89). -/
def no_llm_fallback_text (language : String) : String :=
  if language = "vi" then
    "Xin lỗi, tôi không thể xử lý câu hỏi này ngay bây giờ. Vui lòng liên hệ với chúng tôi qua Zalo: 0935005762 🐾"
  else
    "Sorry, I can\x27t process that question right now. Please contact us on Zalo: 0935005762 🐾"

/-- The fixed caught-exception apology (chatbot.py lines 162-166). -/
def error_apology_text (language : String) : String :=
  if language = "vi" then
    "Xin lỗi, đã có lỗi xảy ra. Vui lòng thử lại sau. 😔"
  else
    "Sorry, an error occurred. Please try again later. 😔"

/-- Python's `x or default` on an optional string: the default replaces
both a missing and an empty (falsy) value — used for the tool-call id
fallback `tool_call_id or f"call_{tool_name}"`. -/
def pyOrDefault (x : Option String) (default : String) : String :=
  match x with
  | some s => if s ≠ "" then s else default
  | none => default

/-- What `chatbot_node` returns: either the state unchanged (guard
paths) or an update appending messages and setting the language. -/
inductive NodeUpdate where
  | unchanged
  | update (messages : List Msg) (language : String)
deriving DecidableEq

/-- The result of one `chatbot_node` invocation, with an execution trace
of the externally visible routing decisions: how many `llm.invoke`
calls were attempted, and the `tools` list prepared for `get_llm`
(`none` when `use_tools` is false or on the rule-based branches). -/
structure NodeOut where
  upd : NodeUpdate
  llm_invocations : Nat
  tools_prepared : Option (List String)
deriving DecidableEq

/-- The tool-execution loop of `chatbot_node` (chatbot.py lines
107-145): resolve each requested call against the bound tools by name
(skipping calls with a missing/empty/unknown name), execute it, and
wrap the textual result — or the execution error's text — in a
tool-result message tagged with the call id (synthesizing
`call_{toolName}` when absent). -/
def execute_tool_calls (env : LlmEnv) (tool_map : List String)
    (tool_calls : List ToolCall) : List Msg :=
  tool_calls.filterMap fun tc =>
    match tc.name with
    | some tool_name =>
      if tool_name ≠ "" ∧ tool_map.contains tool_name then
        some (match env.run_tool tool_name tc.args with
          | .ok tool_result =>
            ⟨.tool, tool_result, some (pyOrDefault tc.id ("call_" ++ tool_name))⟩
          | .error e =>
            ⟨.tool, "Error executing tool " ++ tool_name ++ ": " ++ e,
              some (pyOrDefault tc.id ("call_" ++ tool_name))⟩)
      else none
    | none => none

/-- `chatbot_node` (chatbot.py lines 30-172). Guard paths return the
state unchanged; otherwise the detected language and classified (or
forced) intent select a rule-based text, the no-LLM fallback, or the
LLM path (one invocation, plus a second after executing any requested
tool calls); any exception raised inside the try block (an `.error`
from an oracle) is caught and replaced by the fixed apology. The
returned update always carries exactly the one new assistant message
(the LangGraph `add_messages` reducer appends it to the transcript). -/
def chatbot_node (env : LlmEnv) (doc : CacheDoc) (state : ChatbotState) : NodeOut :=
  let messages := state.messages
  match messages.getLast? with
  | none => ⟨.unchanged, 0, none⟩
  | some last_message =>
    if last_message.role ≠ .human then ⟨.unchanged, 0, none⟩
    else
      let user_text := last_message.content
      let language := detect_language user_text
      let intent :=
        match state.forced_intent with
        | some i => i
        | none => classify_intent user_text language
      if intent = "cat_products" then
        ⟨.update [⟨.ai, get_cat_products_text doc language, none⟩] language, 0, none⟩
      else if intent = "dog_products" then
        ⟨.update [⟨.ai, get_dog_products_text doc language, none⟩] language, 0, none⟩
      else if intent = "business" then
        ⟨.update [⟨.ai, get_business_info_text language, none⟩] language, 0, none⟩
      else if intent = "contact" then
        ⟨.update [⟨.ai, get_contact_info_text language, none⟩] language, 0, none⟩
      else
        let use_tools := intent = "product_search" ∨ intent = "general"
        let tools := if use_tools then some chatbot_tool_names else none
        if env.llm_available = false then
          ⟨.update [⟨.ai, no_llm_fallback_text language, none⟩] language, 0, tools⟩
        else
          let system_prompt := get_system_prompt language
          let llm_messages := ⟨.system, system_prompt, none⟩ :: messages
          match env.invoke1 llm_messages with
          | .error _ =>
            ⟨.update [⟨.ai, error_apology_text language, none⟩] language, 1, tools⟩
          | .ok llm_response =>
            if llm_response.tool_calls ≠ [] then
              let tool_messages :=
                execute_tool_calls env (tools.getD []) llm_response.tool_calls
              let updated_messages :=
                llm_messages ++ [⟨.ai, llm_response.content, none⟩] ++ tool_messages
              match env.invoke2 updated_messages with
              | .error _ =>
                ⟨.update [⟨.ai, error_apology_text language, none⟩] language, 2, tools⟩
              | .ok final_content =>
                ⟨.update [⟨.ai, final_content, none⟩] language, 2, tools⟩
            else
              ⟨.update [⟨.ai, llm_response.content, none⟩] language, 1, tools⟩

/-! ## `backend/src/metrics.py` -/

/-- Round-half-even at integer precision, the rounding mode of CPython's
`round`. (CPython rounds the binary-double value; the claims' inputs are
exactly representable, so the exact rational model coincides.) -/
def pyRoundInt (q : ℚ) : ℤ :=
  let f := ⌊q⌋
  let r := q - f
  if r < 1/2 then f
  else if r > 1/2 then f + 1
  else if f % 2 = 0 then f else f + 1

/-- Python's `round(x, 2)`. -/
def pyRound2 (q : ℚ) : ℚ := (pyRoundInt (q * 100) : ℚ) / 100

/-- The mutable state of `MetricsCollector` (metrics.py lines 20-28).
The lock is irrelevant in this sequential model; `max_response_times`
is the constant 1000. -/
structure MetricsCollectorState where
  start_time : ℚ
  request_count : Nat
  error_count : Nat
  response_times : List ℚ
  endpoint_counts : List (String × Nat)
  endpoint_errors : List (String × Nat)
deriving DecidableEq

def max_response_times : Nat := 1000

/-- `defaultdict(int)` increment: bump the counter for `key`, inserting
it with value 1 at the end when absent (Python dict insertion order). -/
def bumpCounter (counters : List (String × Nat)) (key : String) :
    List (String × Nat) :=
  if counters.any (fun kv => kv.1 = key) then
    counters.map (fun kv => if kv.1 = key then (kv.1, kv.2 + 1) else kv)
  else counters ++ [(key, 1)]

/-- `MetricsCollector.record_request` (metrics.py lines 30-43). -/
def record_request (st : MetricsCollectorState) (endpoint : String)
    (response_time : ℚ) (is_error : Bool) : MetricsCollectorState :=
  let rts := st.response_times ++ [response_time]
  { st with
    request_count := st.request_count + 1
    endpoint_counts := bumpCounter st.endpoint_counts endpoint
    error_count := if is_error then st.error_count + 1 else st.error_count
    endpoint_errors :=
      if is_error then bumpCounter st.endpoint_errors endpoint else st.endpoint_errors
    response_times := if rts.length > max_response_times then rts.tail else rts }

/-- The dictionary returned by `MetricsCollector.get_stats`
(metrics.py lines 62-74). `uptime_formatted` (a `str(timedelta)`
rendering of `uptime_seconds`) is presentational and not modelled. -/
structure Stats where
  uptime_seconds : ℚ
  total_requests : Nat
  total_errors : Nat
  error_rate : ℚ
  avg_response_time_ms : ℚ
  p95_response_time_ms : Option ℚ
  p99_response_time_ms : Option ℚ
  requests_per_minute : ℚ
  endpoint_counts : List (String × Nat)
  endpoint_errors : List (String × Nat)
deriving DecidableEq

/-- `MetricsCollector.get_stats` (metrics.py lines 45-74), with the
current wall-clock time as an explicit argument. `sorted(...)[int(n *
0.95)]` is modelled as the sorted list indexed at `19 * n / 20` (natural
floor division): CPython's `int(n * 0.95)` on binary doubles equals
`⌊19n/20⌋` for every `n ≤ 1000`, and the ring buffer caps `n` at 1000.
Likewise `int(n * 0.99)` equals `⌊99n/100⌋` in range. The index is in
bounds whenever the length gate holds, so `getD`'s default is inert. -/
def get_stats (st : MetricsCollectorState) (now : ℚ) : Stats :=
  let uptime_seconds := now - st.start_time
  let n := st.response_times.length
  let avg_response_time :=
    if st.response_times ≠ [] then st.response_times.sum / (n : ℚ) else 0
  let sorted_times := st.response_times.insertionSort (· ≤ ·)
  let p95_response_time := if 20 ≤ n then sorted_times.getD (19 * n / 20) 0 else 0
  let p99_response_time := if 100 ≤ n then sorted_times.getD (99 * n / 100) 0 else 0
  { uptime_seconds := uptime_seconds
    total_requests := st.request_count
    total_errors := st.error_count
    error_rate :=
      if 0 < st.request_count then (st.error_count : ℚ) / (st.request_count : ℚ) else 0
    avg_response_time_ms := pyRound2 (avg_response_time * 1000)
    p95_response_time_ms :=
      if 0 < p95_response_time then some (pyRound2 (p95_response_time * 1000)) else none
    p99_response_time_ms :=
      if 0 < p99_response_time then some (pyRound2 (p99_response_time * 1000)) else none
    requests_per_minute :=
      if 0 < uptime_seconds then pyRound2 ((st.request_count : ℚ) / (uptime_seconds / 60))
      else 0
    endpoint_counts := st.endpoint_counts
    endpoint_errors := st.endpoint_errors }

/-! ## `backend/src/api.py` — `/health/metrics` overall status -/

/-- The overall-status derivation of `health_metrics` (api.py lines
137-161), as a function of the four signals it reads: the tunnel status
and chat self-test status strings (from `get_service_health` /
`test_chat_endpoint`), the application error rate (from
`get_stats()["error_rate"]`), and whether the LLM API key is configured
(`service_health["xai_api"]["configured"]`). -/
def health_metrics_overall_status (tunnel_status : String)
    (chat_status : String) (error_rate : ℚ) (xai_configured : Bool) : String :=
  let overall := "healthy"
  let overall :=
    if tunnel_status = "unhealthy" then "unhealthy"
    else if tunnel_status = "not_configured" ∧ overall = "healthy" then "degraded"
    else overall
  let overall :=
    if chat_status = "unhealthy" then "unhealthy"
    else if chat_status = "degraded" ∧ overall = "healthy" then "degraded"
    else overall
  let overall := if error_rate > 1/10 then "degraded" else overall
  let overall := if error_rate > 1/2 then "unhealthy" else overall
  let overall := if ¬xai_configured ∧ overall = "healthy" then "degraded" else overall
  overall

/-- Reference status derivation following the amended claim C3: the
error-rate rules override every earlier rule (the `> 0.1` rule writes
"degraded" unconditionally and the `> 0.5` rule then writes
"unhealthy"); at error rates ≤ 0.1 the precedence is monotone as the
spec states. -/
def overall_status_spec_amended (tunnel_status : String)
    (chat_status : String) (error_rate : ℚ) (xai_configured : Bool) : String :=
  if error_rate > 1/2 then "unhealthy"
  else if error_rate > 1/10 then "degraded"
  else if tunnel_status = "unhealthy" ∨ chat_status = "unhealthy" then "unhealthy"
  else if tunnel_status = "not_configured" ∨ chat_status = "degraded" ∨
    xai_configured = false then "degraded"
  else "healthy"

/-! ## `backend/src/woocommerce.py` and `backend/scripts/sync_products.py` -/

/-- The raw product shape returned by the storefront API, restricted to
the fields the product-details tool reads. Python dict `.get` access
with a default is modelled by `Option` fields read through `getD`. -/
structure RemoteProduct where
  name : Option String := none
  prices_price : Option String := none
  prices_currency_symbol : Option String := none
  stock_availability_text : Option String := none
  is_in_stock : Option Bool := none
  low_stock_remaining : Option Int := none
  description : Option String := none
  short_description : Option String := none
  permalink : Option String := none
deriving DecidableEq

/-- The declared keyword parameters of `WooCommerceClient.__init__`
(woocommerce.py lines 13-18): `base_url`, `cache_ttl`, `timeout` — and
no others; in particular no `max_retries`. -/
def woo_client_init_params : List String := ["base_url", "cache_ttl", "timeout"]

/-- Python keyword-argument call semantics: calling a function raises
`TypeError` when a supplied keyword does not name a declared parameter
(argument values are recorded but irrelevant to this check). -/
def pyKeywordCall (declared : List String) (supplied : List (String × Int)) :
    Except String Unit :=
  match supplied.find? (fun kv => !(declared.contains kv.1)) with
  | some kv =>
    .error ("TypeError: __init__() got an unexpected keyword argument \x27" ++
      kv.1 ++ "\x27")
  | none => .ok ()

/-- The keyword arguments `sync_products` supplies to the client
constructor (sync_products.py lines 151-155): caching disabled,
30-second timeout, `max_retries=3`. -/
def sync_products_client_kwargs : List (String × Int) :=
  [("cache_ttl", 0), ("timeout", 30), ("max_retries", 3)]

/-- The client-construction and catalog-fetch phase of `sync_products`
(sync_products.py lines 148-163): construct the `WooCommerceClient`,
then fetch the full catalog (`get_all_products(per_page=100)`, supplied
as an oracle since it is a network call). A `.error` value is an
exception propagating out of `sync_products` (caught by `main`, which
then writes an error-state cache document and exits 1). -/
def sync_products_fetch_phase (fetch : Except String (List RemoteProduct)) :
    Except String (List RemoteProduct) :=
  match pyKeywordCall woo_client_init_params sync_products_client_kwargs with
  | .error e => .error e
  | .ok _ => fetch

/-- A `ValueError` raised by `get_product_by_name` (the NotFound
condition), or any other exception propagating from the search call. -/
inductive ProductLookupError where
  | notFound (product_name : String)
  | exc (msg : String)
deriving DecidableEq

/-- `get_product_by_name` (woocommerce.py lines 226-242), over a search
oracle standing for `search_products` (called with `per_page = 10`):
raises `ValueError` — NotFound — exactly when the search returns no
results, and otherwise returns the first result. -/
def get_product_by_name
    (search : String → Nat → Except String (List RemoteProduct))
    (product_name : String) : Except ProductLookupError RemoteProduct :=
  match search product_name 10 with
  | .error e => .error (.exc e)
  | .ok [] => .error (.notFound product_name)
  | .ok (p :: _) => .ok p

/-! ## `backend/src/woocommerce_tools.py` -/

/-- Python whitespace for `str.strip()` / leading `int()` stripping. -/
def isPySpace (c : Char) : Bool :=
  c = ' ' || c = '\t' || c = '\n' || c = '\r'

def pyStripChars (l : List Char) : List Char :=
  ((l.dropWhile isPySpace).reverse.dropWhile isPySpace).reverse

/-- Python's `str.strip()`. -/
def pyStrip (s : String) : String := String.mk (pyStripChars s.data)

def digitsToNat? (ds : List Char) : Option Nat :=
  if ds = [] then none
  else
    ds.foldl (fun acc c =>
      match acc with
      | some n => if c.isDigit then some (10 * n + (c.toNat - 48)) else none
      | none => none) (some 0)

/-- Python's `int(s)` on a string: optional surrounding whitespace, an
optional sign, then decimal digits; `none` models the `ValueError`.
(CPython also accepts underscore digit grouping, which no input here
uses.) -/
def pyIntParse (s : String) : Option Int :=
  match pyStripChars s.data with
  | '+' :: ds => (digitsToNat? ds).map Int.ofNat
  | '-' :: ds => (digitsToNat? ds).map (fun n => -(n : Int))
  | ds => (digitsToNat? ds).map Int.ofNat

/-- Digit groups of three, taken from a reversed digit list. -/
def chunksOf3 : List Char → List (List Char)
  | a :: b :: c :: rest => [a, b, c] :: chunksOf3 rest
  | [] => []
  | l => [l]

/-- Python's `f"{price:,}"` followed by `.replace(",", ".")`: decimal
rendering with `.` as the thousands separator. -/
def pyFormatThousandsDots (n : Int) : String :=
  let ds := (toString n.natAbs).data
  let grouped := List.intercalate ['.'] (chunksOf3 ds.reverse)
  String.mk ((if n < 0 then ['-'] else []) ++ grouped.reverse)

/-- `format_price` (woocommerce_tools.py lines 19-34): integer prices get
thousands separators, anything unparseable passes through unchanged. -/
def format_price (price_str : String) : String :=
  match pyIntParse price_str with
  | some price => pyFormatThousandsDots price
  | none => price_str

/-- `re.sub(r'<[^>]+>', '', s)` (woocommerce_tools.py lines 223, 229):
drop every maximal `<`…`>` span with at least one non-`>` character
between the brackets. -/
def stripHtmlTags : List Char → List Char
  | [] => []
  | '<' :: rest =>
    let inner := rest.takeWhile (fun c => c ≠ '>')
    if inner.length ≠ 0 ∧ inner.length < rest.length then
      stripHtmlTags (rest.drop (inner.length + 1))
    else
      '<' :: stripHtmlTags rest
  | c :: rest => c :: stripHtmlTags rest
termination_by l => l.length
decreasing_by
  · simp only [List.length_drop, List.length_cons]
    omega
  · simp only [List.length_cons]
    omega
  · simp only [List.length_cons]
    omega

/-- Python's `"\n".join(lines)`. -/
def joinLines : List String → String
  | [] => ""
  | [x] => x
  | x :: xs => x ++ "\n" ++ joinLines xs

/-- The detailed product rendering of `get_product_details_tool`
(woocommerce_tools.py lines 184-239). -/
def renderProductDetails (product : RemoteProduct) : String :=
  let name := product.name.getD "Unknown Product"
  let price := product.prices_price.getD "0"
  let currency_symbol := product.prices_currency_symbol.getD "₫"
  let formatted_price := format_price price
  let stock_text := product.stock_availability_text.getD ""
  let is_in_stock := product.is_in_stock.getD false
  let low_stock := product.low_stock_remaining
  let description := product.description.getD ""
  let short_description := product.short_description.getD ""
  let permalink := product.permalink.getD ""
  let lines := ["**" ++ name ++ "**", "",
    "Price: " ++ formatted_price ++ " " ++ currency_symbol]
  let lines := lines ++
    (if is_in_stock = false then ["Stock: Out of stock"]
     else
       match low_stock with
       | some nrem =>
         if nrem ≤ 5 then ["Stock: Low stock (" ++ toString nrem ++ " remaining)"]
         else ["Stock: " ++ (if stock_text ≠ "" then stock_text else "In stock")]
       | none => ["Stock: " ++ (if stock_text ≠ "" then stock_text else "In stock")])
  let lines := lines ++
    (if short_description ≠ "" then
       let clean_desc := String.mk (stripHtmlTags short_description.data)
       if pyStrip clean_desc ≠ "" then ["", "Description: " ++ pyStrip clean_desc]
       else []
     else if description ≠ "" then
       let clean_desc := String.mk (stripHtmlTags description.data)
       if pyStrip clean_desc ≠ "" then
         ["", "Description: " ++ String.mk ((pyStrip clean_desc).data.take 200) ++ "..."]
       else []
     else [])
  let lines := lines ++
    (if permalink ≠ "" then ["", "[View Product on Website](" ++ permalink ++ ")"]
     else [])
  joinLines lines

/-- The NotFound user message of `get_product_details_tool`
(woocommerce_tools.py line 241). -/
def product_not_found_message (product_name : String) : String :=
  "Không tìm thấy sản phẩm \x27" ++ product_name ++
    "\x27. Vui lòng thử tìm kiếm với từ khóa khác hoặc liên hệ qua Zalo: 0935005762."

/-- The connection-failure user message of `get_product_details_tool`
(woocommerce_tools.py line 246). -/
def details_connection_error_message : String :=
  "Xin lỗi, hiện tại không thể kết nối đến hệ thống sản phẩm để lấy thông tin chi tiết. Vui lòng thử lại sau hoặc liên hệ trực tiếp qua Zalo: 0935005762 để được hỗ trợ."

/-- The generic-failure user message of `get_product_details_tool`
(woocommerce_tools.py line 247). -/
def details_generic_error_message (error_msg : String) : String :=
  "Xin lỗi, đã có lỗi xảy ra khi lấy thông tin sản phẩm: " ++ error_msg ++
    ". Vui lòng liên hệ qua Zalo: 0935005762 để được hỗ trợ."

/-- `get_product_details_tool` (woocommerce_tools.py lines 167-247) over
the search oracle: renders the first search hit; translates the NotFound
`ValueError` into the specific "product not found" message; any other
exception into the connection or generic error message depending on
whether its text mentions a connection. -/
def get_product_details_tool
    (search : String → Nat → Except String (List RemoteProduct))
    (product_name : String) : String :=
  match get_product_by_name search product_name with
  | .ok product => renderProductDetails product
  | .error (.notFound _) => product_not_found_message product_name
  | .error (.exc error_msg) =>
    if pyIn "Connection" error_msg || pyIn "connection" (pyLower error_msg) then
      details_connection_error_message
    else
      details_generic_error_message error_msg

/-! ## Concrete fixtures used by witnesses and counterexamples -/

/-- The concrete collector state used by the C9 witness: 20 recorded
samples of 1 second each. -/
def metrics_witness_state : MetricsCollectorState :=
  ⟨0, 20, 0, List.replicate 20 (1 : ℚ), [], []⟩

/-- The concrete search oracle of the C7 witness: the query "ghost"
yields no results, every other query yields exactly one product. -/
def search_oracle_witness : String → Nat → Except String (List RemoteProduct) :=
  fun q _ =>
    if q = "ghost" then .ok []
    else .ok [⟨some "Pate Nekko cho mèo 70g", some "16000", some "₫",
      none, some true, none, none, none, some "https://lunpetshop.com/p"⟩]

/-- An environment whose LLM gateway is available; the oracles are inert
(any invocation would raise). -/
def env_llm_on : LlmEnv :=
  ⟨true, fun _ => .error "unused", fun _ => .error "unused",
    fun _ _ => .error "unused"⟩

/-- An environment with no LLM configured (`get_llm` returns `None`). -/
def env_no_llm : LlmEnv :=
  ⟨false, fun _ => .error "no llm", fun _ => .error "no llm",
    fun _ _ => .error "no tool"⟩

end LunPetShop

namespace LunPetShop

/-! ## Helper lemmas -/

theorem listContainsSub_eq_true_iff (n h : List Char) :
    listContainsSub n h = true ↔ n <:+: h := by
  induction h with
  | nil =>
    simp [listContainsSub, List.isPrefixOf_iff_prefix]
  | cons c t ih =>
    simp [listContainsSub, List.isPrefixOf_iff_prefix, ih, List.infix_cons_iff]

theorem pyIn_eq_true_iff (needle haystack : String) :
    pyIn needle haystack = true ↔ needle.toList <:+: haystack.toList :=
  listContainsSub_eq_true_iff _ _

theorem string_data_append (a b : String) : (a ++ b).data = a.data ++ b.data := rfl

theorem head?_data_append (a b : String) (h : a.data ≠ []) :
    (a ++ b).data.head? = a.data.head? := by
  rw [string_data_append]
  cases hd : a.data with
  | nil => exact absurd hd h
  | cons c t => rfl

theorem head?_double_append (a b c : String) (h : a.data ≠ []) :
    ((a ++ b) ++ c).data.head? = a.data.head? := by
  have h2 : (a ++ b).data ≠ [] := by
    rw [string_data_append]
    exact fun hc => h (List.append_eq_nil.mp hc).1
  rw [head?_data_append _ _ h2, head?_data_append _ _ h]

theorem joinLines_cons_head? (x : String) (xs : List String) (hx : x.data ≠ []) :
    (joinLines (x :: xs)).data.head? = x.data.head? := by
  cases xs with
  | nil => rfl
  | cons y ys =>
    rw [show joinLines (x :: y :: ys) = (x ++ "\n") ++ joinLines (y :: ys) from rfl]
    have h2 : (x ++ "\n").data ≠ [] := by
      rw [string_data_append]
      exact fun hc => hx (List.append_eq_nil.mp hc).1
    rw [head?_data_append _ _ h2, head?_data_append _ _ hx]

theorem firstChar_renderProductDetails (p : RemoteProduct) :
    (renderProductDetails p).data.head? = some '*' := by
  simp only [renderProductDetails, List.cons_append, List.nil_append]
  rw [joinLines_cons_head?]
  · rw [head?_double_append "**" _ "**" (by decide)]
    decide
  · rw [string_data_append, string_data_append]
    intro hc
    exact absurd (List.append_eq_nil.mp (List.append_eq_nil.mp hc).1).1 (by decide)

theorem firstChar_product_not_found_message (n : String) :
    (product_not_found_message n).data.head? = some 'K' := by
  rw [product_not_found_message,
    head?_double_append "Không tìm thấy sản phẩm \x27" _ _ (by decide)]
  decide

theorem firstChar_details_generic_error_message (e : String) :
    (details_generic_error_message e).data.head? = some 'X' := by
  rw [details_generic_error_message,
    head?_double_append "Xin lỗi, đã có lỗi xảy ra khi lấy thông tin sản phẩm: " _ _
      (by decide)]
  decide

theorem renderProductDetails_ne_not_found (p : RemoteProduct) (n : String) :
    renderProductDetails p ≠ product_not_found_message n := by
  intro h
  have h1 := firstChar_renderProductDetails p
  rw [h, firstChar_product_not_found_message] at h1
  exact absurd h1 (by decide)

theorem connection_message_ne_not_found (n : String) :
    details_connection_error_message ≠ product_not_found_message n := by
  intro h
  have h1 : (details_connection_error_message).data.head? = some 'X' := rfl
  rw [h, firstChar_product_not_found_message] at h1
  exact absurd h1 (by decide)

theorem generic_message_ne_not_found (e n : String) :
    details_generic_error_message e ≠ product_not_found_message n := by
  intro h
  have h1 := firstChar_details_generic_error_message e
  rw [h, firstChar_product_not_found_message] at h1
  exact absurd h1 (by decide)

/-! ## Claims about the language and intent utilities -/

/-- C8: for every text and language, if the lowercased text contains a
keyword of that language's cat list, then `classify_intent` returns
"product_search" when the combined product-search list also matches, and
"cat_products" when it does not. -/
theorem classify_intent_cat_priority_c8 (text language : String)
    (hcat : ((if language = "vi" then cat_keywords_vi else cat_keywords_en).any
      (fun k => pyIn k (pyLower text))) = true) :
    ((product_search_keywords_vi ++ product_search_keywords_en).any
        (fun k => pyIn k (pyLower text)) = true →
      classify_intent text language = "product_search") ∧
    ((product_search_keywords_vi ++ product_search_keywords_en).any
        (fun k => pyIn k (pyLower text)) = false →
      classify_intent text language = "cat_products") := by
  constructor
  · intro hps
    simp [classify_intent, hcat, hps]
  · intro hps
    simp [classify_intent, hcat, hps]

/-- Witness for C8 at concrete inputs: "show me cat food" (cat and
product-search keywords) classifies as "product_search", and
"i love cats" (cat keyword only) classifies as "cat_products". -/
theorem classify_intent_cat_priority_c8_witness :
    classify_intent "show me cat food" "en" = "product_search" ∧
    classify_intent "i love cats" "en" = "cat_products" :=
  ⟨(classify_intent_cat_priority_c8 "show me cat food" "en" (by decide)).1 (by decide),
   (classify_intent_cat_priority_c8 "i love cats" "en" (by decide)).2 (by decide)⟩

/-- C10: `detect_language` matches its Vietnamese word list by raw
substring containment: the all-ASCII input "school" contains no
Vietnamese diacritic character and no Vietnamese word as a standalone
(space-separated) token, yet it is classified "vi" (it contains the
substring "cho"). -/
theorem detect_language_substring_c10 :
    ∃ t : String,
      (t.toList.all fun c => decide (c.toNat < 128)) = true ∧
      (vietnamese_chars.all fun c => !(pyIn c (pyLower t))) = true ∧
      ((spaceTokens t).all fun tok =>
        !(vietnamese_words.contains tok)) = true ∧
      detect_language t = "vi" :=
  ⟨"school", by decide, by decide, by decide, by decide⟩

/-! ## Claims about the knowledge base -/

/-- C6: whenever `load_products_cache` actually (re)loads (no memoized
document, or a forced reload) and the cache file is absent, unreadable,
or missing the `categories` or `last_sync` key, it returns — never
raises — the built-in fallback document: `sync_status = "fallback"`,
`last_sync` absent, `total_products = 0`, and the three hardcoded seed
buckets. -/
theorem load_products_cache_fallback_c6 (memo : Option CacheDoc)
    (force_reload : Bool) (file : CacheFileRead)
    (hload : memo = none ∨ force_reload = true)
    (hbad : file = .absent ∨ (∃ e, file = .unreadable e) ∨
      (∃ hc hl doc, file = .parsed hc hl doc ∧ (hc = false ∨ hl = false))) :
    load_products_cache memo force_reload file = fallback_cache_doc ∧
    fallback_cache_doc.sync_status = "fallback" ∧
    fallback_cache_doc.last_sync = none ∧
    fallback_cache_doc.total_products = 0 ∧
    fallback_cache_doc.categories =
      ⟨FALLBACK_CAT_PRODUCTS, FALLBACK_DOG_PRODUCTS, FALLBACK_GENERAL_PRODUCTS⟩ := by
  refine ⟨?_, rfl, rfl, rfl, rfl⟩
  have hmain : ∀ f : CacheFileRead,
      (f = .absent ∨ (∃ e, f = .unreadable e) ∨
        (∃ hc hl doc, f = .parsed hc hl doc ∧ (hc = false ∨ hl = false))) →
      (match f with
        | .parsed true true doc => doc
        | _ => fallback_cache_doc) = fallback_cache_doc := by
    intro f hf
    rcases hf with h | ⟨e, h⟩ | ⟨hc, hl, doc, h, hfalse⟩ <;> subst h
    · rfl
    · rfl
    · rcases hfalse with h2 | h2
      · subst h2; cases hl <;> rfl
      · subst h2; cases hc <;> rfl
  rcases hload with h | h
  · subst h
    cases force_reload <;> exact hmain file hbad
  · subst h
    cases memo <;> exact hmain file hbad

/-- Witness for C6: loading with no memo and an absent cache file yields
the fallback document. -/
theorem load_products_cache_fallback_c6_witness :
    load_products_cache none false .absent = fallback_cache_doc ∧
    fallback_cache_doc.sync_status = "fallback" ∧
    fallback_cache_doc.last_sync = none ∧
    fallback_cache_doc.total_products = 0 ∧
    fallback_cache_doc.categories =
      ⟨FALLBACK_CAT_PRODUCTS, FALLBACK_DOG_PRODUCTS, FALLBACK_GENERAL_PRODUCTS⟩ :=
  load_products_cache_fallback_c6 none false .absent (Or.inl rfl) (Or.inl rfl)

/-! ## Claims about the health-status derivation -/

/-- Counterexample to C3 as stated: with tunnel status "unhealthy", chat
self-test "healthy", error rate 0.2 and the LLM configured, the overall
status is "degraded", not "unhealthy" — the unconditional `> 0.1`
error-rate rule downgrades the status the tunnel rule had set. -/
theorem health_status_c3_counterexample :
    health_metrics_overall_status "unhealthy" "healthy" (1/5) true = "degraded" ∧
    health_metrics_overall_status "unhealthy" "healthy" (1/5) true ≠ "unhealthy" := by
  have h : health_metrics_overall_status "unhealthy" "healthy" (1/5) true = "degraded" := by
    norm_num [health_metrics_overall_status]
  exact ⟨h, by rw [h]; decide⟩

/-- C3 amended: the rules are applied in the stated order, but the
`> 0.1` error-rate rule sets "degraded" unconditionally, so error rates
in (0.1, 0.5] force "degraded" even over an "unhealthy" tunnel or chat
status, and error rates above 0.5 force "unhealthy"; at error rates
≤ 0.1 the precedence is monotone as stated (tunnel "unhealthy" then
forces "unhealthy"). -/
theorem health_status_c3_amended (tunnel_status chat_status : String)
    (error_rate : ℚ) (xai_configured : Bool) :
    health_metrics_overall_status tunnel_status chat_status error_rate xai_configured =
      overall_status_spec_amended tunnel_status chat_status error_rate xai_configured := by
  simp only [health_metrics_overall_status, overall_status_spec_amended]
  split_ifs <;> simp_all

/-! ## Claims about the metrics collector -/

/-- Counterexample to C9 as stated: with exactly 20 recorded samples
(all 0.0), `get_stats` reports `p95_response_time_ms` as absent, even
though at least 20 samples exist — the `if p95_response_time > 0` guard
suppresses the computed value when the selected sample is 0. -/
theorem get_stats_c9_counterexample :
    (List.replicate 20 (0 : ℚ)).length = 20 ∧
    (get_stats ⟨0, 20, 0, List.replicate 20 (0 : ℚ), [], []⟩ 100).p95_response_time_ms
      = none := by
  constructor <;> decide

/-- C9 amended: `p95_response_time_ms` is absent whenever fewer than 20
samples exist; from 20 samples on, it is the sample at index
`int(0.95 * N)` of the sorted array, converted to milliseconds (rounded
to 2 decimals), provided that sample is positive — when it is 0 (or
negative) the field is still reported absent. Analogously for
`p99_response_time_ms` at the 100-sample threshold with index
`int(0.99 * N)`. -/
theorem get_stats_percentiles_c9_amended (st : MetricsCollectorState) (now : ℚ) :
    ((st.response_times.length < 20 →
        (get_stats st now).p95_response_time_ms = none) ∧
      (20 ≤ st.response_times.length →
        0 < (st.response_times.insertionSort (· ≤ ·)).getD
            (19 * st.response_times.length / 20) 0 →
        (get_stats st now).p95_response_time_ms =
          some (pyRound2 ((st.response_times.insertionSort (· ≤ ·)).getD
            (19 * st.response_times.length / 20) 0 * 1000))) ∧
      (20 ≤ st.response_times.length →
        (st.response_times.insertionSort (· ≤ ·)).getD
            (19 * st.response_times.length / 20) 0 ≤ 0 →
        (get_stats st now).p95_response_time_ms = none)) ∧
    ((st.response_times.length < 100 →
        (get_stats st now).p99_response_time_ms = none) ∧
      (100 ≤ st.response_times.length →
        0 < (st.response_times.insertionSort (· ≤ ·)).getD
            (99 * st.response_times.length / 100) 0 →
        (get_stats st now).p99_response_time_ms =
          some (pyRound2 ((st.response_times.insertionSort (· ≤ ·)).getD
            (99 * st.response_times.length / 100) 0 * 1000))) ∧
      (100 ≤ st.response_times.length →
        (st.response_times.insertionSort (· ≤ ·)).getD
            (99 * st.response_times.length / 100) 0 ≤ 0 →
        (get_stats st now).p99_response_time_ms = none)) := by
  simp only [get_stats]
  refine ⟨⟨fun hlt => ?_, fun hge hpos => ?_, fun hge hnp => ?_⟩,
    ⟨fun hlt => ?_, fun hge hpos => ?_, fun hge hnp => ?_⟩⟩
  · rw [if_neg (show ¬(20 ≤ st.response_times.length) by omega)]
    simp
  · rw [if_pos hge, if_pos hpos]
  · rw [if_pos hge, if_neg (not_lt.mpr hnp)]
  · rw [if_neg (show ¬(100 ≤ st.response_times.length) by omega)]
    simp
  · rw [if_pos hge, if_pos hpos]
  · rw [if_pos hge, if_neg (not_lt.mpr hnp)]

/-- Witness for C9 amended: with 20 samples of 1.0 second each, the p95
field is present and equals 1000 ms; with the same state, p99 is absent
(fewer than 100 samples). -/
theorem get_stats_percentiles_c9_witness :
    (get_stats metrics_witness_state 100).p95_response_time_ms = some 1000 ∧
    (get_stats metrics_witness_state 100).p99_response_time_ms = none := by
  have hv : (metrics_witness_state.response_times.insertionSort (· ≤ ·)).getD
      (19 * metrics_witness_state.response_times.length / 20) 0 = (1 : ℚ) := by
    decide
  have h95 := (get_stats_percentiles_c9_amended
    metrics_witness_state 100).1.2.1 (by decide) (by decide)
  have h99 := (get_stats_percentiles_c9_amended
    metrics_witness_state 100).2.1 (by decide)
  refine ⟨?_, h99⟩
  rw [h95, hv]
  simp only [pyRound2, pyRoundInt]
  norm_num

/-! ## Claims about the product sync job -/

/-- C2 (code-bug evidence): `WooCommerceClient.__init__` declares no
`max_retries` parameter, yet `sync_products` passes `max_retries=3`, so
the construction raises `TypeError` and — for every possible fetch
outcome — the job never reaches the catalog fetch. -/
theorem sync_products_construction_fails_c2
    (fetch : Except String (List RemoteProduct)) :
    sync_products_fetch_phase fetch =
      .error
        "TypeError: __init__() got an unexpected keyword argument \x27max_retries\x27" :=
  rfl

/-! ## Claims about the product-details tool -/

/-- C7: `get_product_by_name` raises NotFound iff the search (perPage 10)
yields zero results, and otherwise returns the first result; the
product-details tool translates exactly that NotFound condition into the
specific Vietnamese "product not found" message, which contains the Zalo
number 0935005762 and differs from the generic and connection error
messages. -/
theorem get_product_by_name_not_found_c7
    (search : String → Nat → Except String (List RemoteProduct))
    (product_name : String) :
    (get_product_by_name search product_name =
        .error (.notFound product_name) ↔ search product_name 10 = .ok []) ∧
    (∀ p ps, search product_name 10 = .ok (p :: ps) →
      get_product_by_name search product_name = .ok p) ∧
    (get_product_details_tool search product_name =
        product_not_found_message product_name ↔
      search product_name 10 = .ok []) ∧
    pyIn "0935005762" (product_not_found_message product_name) = true ∧
    (∀ e, details_generic_error_message e ≠ product_not_found_message product_name) ∧
    details_connection_error_message ≠ product_not_found_message product_name := by
  refine ⟨?_, ?_, ?_, ?_, fun e => generic_message_ne_not_found e product_name,
    connection_message_ne_not_found product_name⟩
  · cases hs : search product_name 10 with
    | error e => simp [get_product_by_name, hs]
    | ok l =>
      cases l with
      | nil => simp [get_product_by_name, hs]
      | cons p ps => simp [get_product_by_name, hs]
  · intro p ps hs
    simp [get_product_by_name, hs]
  · cases hs : search product_name 10 with
    | error e =>
      simp only [get_product_details_tool, get_product_by_name, hs]
      constructor
      · intro h
        split at h
        · exact absurd h (connection_message_ne_not_found product_name)
        · exact absurd h (generic_message_ne_not_found e product_name)
      · intro h
        exact absurd h (by simp)
    | ok l =>
      cases l with
      | nil =>
        simp only [get_product_details_tool, get_product_by_name, hs]
      | cons p ps =>
        simp only [get_product_details_tool, get_product_by_name, hs]
        constructor
        · intro h
          exact absurd h (renderProductDetails_ne_not_found p product_name)
        · intro h
          exact absurd h (by simp)
  · rw [pyIn_eq_true_iff]
    have h1 : ("0935005762" : String).toList <:+:
        ("\x27. Vui lòng thử tìm kiếm với từ khóa khác hoặc liên hệ qua Zalo: 0935005762." : String).toList :=
      (pyIn_eq_true_iff _ _).mp (by decide)
    have h2 : (product_not_found_message product_name).toList =
        ("Không tìm thấy sản phẩm \x27" ++ product_name).data ++
          ("\x27. Vui lòng thử tìm kiếm với từ khóa khác hoặc liên hệ qua Zalo: 0935005762." : String).data :=
      rfl
    rw [h2]
    exact h1.trans (List.suffix_append _ _).isInfix

/-- Witness for C7: on the oracle above, looking up "ghost" raises
NotFound and the tool renders the specific not-found message, while a
successful query returns the first (only) search hit. -/
theorem get_product_by_name_not_found_c7_witness :
    get_product_by_name search_oracle_witness "ghost" =
      .error (.notFound "ghost") ∧
    get_product_details_tool search_oracle_witness "ghost" =
      product_not_found_message "ghost" ∧
    get_product_by_name search_oracle_witness "pate" =
      .ok ⟨some "Pate Nekko cho mèo 70g", some "16000", some "₫",
        none, some true, none, none, none, some "https://lunpetshop.com/p"⟩ :=
  ⟨(get_product_by_name_not_found_c7 search_oracle_witness "ghost").1.mpr rfl,
   (get_product_by_name_not_found_c7 search_oracle_witness "ghost").2.2.1.mpr rfl,
   (get_product_by_name_not_found_c7 search_oracle_witness "pate").2.1 _ [] rfl⟩


/-! ## Claims about the LLM gateway configuration -/

/-- Counterexample to C4 as stated: with the API key configured (and
construction succeeding), `get_llm` uses model
"grok-4-fast-non-reasoning" (not "grok-4-1-fast-non-reasoning"),
temperature 0.7 (not 0.3) and max_tokens 500 (not 1500); only the base
URL matches the claim. -/
theorem get_llm_config_c4_counterexample :
    ∃ cfg, get_llm_config true true = some cfg ∧
      cfg.model = "grok-4-fast-non-reasoning" ∧
      cfg.model ≠ "grok-4-1-fast-non-reasoning" ∧
      cfg.base_url = "https://api.x.ai/v1" ∧
      cfg.temperature = 7/10 ∧ cfg.temperature ≠ 3/10 ∧
      cfg.max_tokens = 500 ∧ cfg.max_tokens ≠ 1500 := by
  refine ⟨_, rfl, rfl, by decide, rfl, rfl, by norm_num, rfl, by decide⟩

/-- C4 amended: when the LLM API key is configured (and client
construction does not raise), `get_llm` constructs a chat-completion
client with model identifier "grok-4-fast-non-reasoning", base URL
https://api.x.ai/v1, temperature 0.7, and max output tokens 500. -/
theorem get_llm_config_c4_amended :
    get_llm_config true true =
      some ⟨"grok-4-fast-non-reasoning", "https://api.x.ai/v1", 7/10, 500⟩ := rfl

/-! ## Claims about the chat node -/

/-- C5: whenever the transcript is non-empty and its last message is a
user message, `chatbot_node` — on the rule-based, LLM, tool-calling,
no-LLM-fallback and caught-exception paths alike — returns an update
appending exactly one assistant message and setting the language to the
value detected from that user message. -/
theorem chatbot_node_single_assistant_c5 (env : LlmEnv) (doc : CacheDoc)
    (st : ChatbotState) (m : Msg)
    (hlast : st.messages.getLast? = some m) (hrole : m.role = .human) :
    ∃ resp, (chatbot_node env doc st).upd =
      .update [⟨.ai, resp, none⟩] (detect_language m.content) := by
  simp only [chatbot_node, hlast, hrole, ne_eq, not_true_eq_false, if_false]
  repeat first
    | exact ⟨_, rfl⟩
    | split

/-- Witness for C5: one user message "hello", no LLM configured — the
update is one assistant message with the detected language. -/
theorem chatbot_node_single_assistant_c5_witness :
    ∃ resp, (chatbot_node env_no_llm fallback_cache_doc
      ⟨[⟨.human, "hello", none⟩], "vi", none⟩).upd =
      .update [⟨.ai, resp, none⟩] (detect_language "hello") :=
  chatbot_node_single_assistant_c5 env_no_llm fallback_cache_doc
    ⟨[⟨.human, "hello", none⟩], "vi", none⟩ ⟨.human, "hello", none⟩ rfl rfl

/-- Counterexample to C1 as stated: with the LLM gateway available, the
user message "i love cats" (cat keyword, no product-search keyword) is
answered rule-based from the knowledge base — zero LLM invocations, no
tools prepared — instead of being routed to the LLM. -/
theorem chatbot_routing_c1_counterexample :
    env_llm_on.llm_available = true ∧
    (chatbot_node env_llm_on fallback_cache_doc
        ⟨[⟨.human, "i love cats", none⟩], "vi", none⟩).llm_invocations = 0 ∧
    (chatbot_node env_llm_on fallback_cache_doc
        ⟨[⟨.human, "i love cats", none⟩], "vi", none⟩).upd =
      .update [⟨.ai, get_cat_products_text fallback_cache_doc "en", none⟩] "en" := by
  refine ⟨rfl, ?_, ?_⟩ <;> rfl

/-- C1 amended: `chatbot_node` always classifies intent first (when
`forced_intent` is unset). The four rule-based intents are answered from
the knowledge base without consulting the LLM even when it is
available, and with no tools prepared; only the `product_search` and
`general` intents prepare the three catalog tool adapters and go to the
LLM — falling back to the fixed no-LLM message when the gateway is
unavailable, and invoking the LLM at least once when it is. -/
theorem chatbot_routing_c1_amended (env : LlmEnv) (doc : CacheDoc)
    (st : ChatbotState) (m : Msg)
    (hlast : st.messages.getLast? = some m) (hrole : m.role = .human)
    (hforced : st.forced_intent = none) :
    ((classify_intent m.content (detect_language m.content) = "cat_products" →
      chatbot_node env doc st =
        ⟨.update [⟨.ai, get_cat_products_text doc (detect_language m.content), none⟩]
          (detect_language m.content), 0, none⟩) ∧
     (classify_intent m.content (detect_language m.content) = "dog_products" →
      chatbot_node env doc st =
        ⟨.update [⟨.ai, get_dog_products_text doc (detect_language m.content), none⟩]
          (detect_language m.content), 0, none⟩) ∧
     (classify_intent m.content (detect_language m.content) = "business" →
      chatbot_node env doc st =
        ⟨.update [⟨.ai, get_business_info_text (detect_language m.content), none⟩]
          (detect_language m.content), 0, none⟩) ∧
     (classify_intent m.content (detect_language m.content) = "contact" →
      chatbot_node env doc st =
        ⟨.update [⟨.ai, get_contact_info_text (detect_language m.content), none⟩]
          (detect_language m.content), 0, none⟩)) ∧
    ((classify_intent m.content (detect_language m.content) = "product_search" ∨
      classify_intent m.content (detect_language m.content) = "general") →
      ((chatbot_node env doc st).tools_prepared = some chatbot_tool_names ∧
       (env.llm_available = false →
         chatbot_node env doc st =
           ⟨.update [⟨.ai, no_llm_fallback_text (detect_language m.content), none⟩]
             (detect_language m.content), 0, some chatbot_tool_names⟩) ∧
       (env.llm_available = true →
         1 ≤ (chatbot_node env doc st).llm_invocations))) := by
  simp only [chatbot_node, hlast, hrole, hforced, ne_eq, not_true_eq_false, if_false]
  refine ⟨⟨fun h => ?_, fun h => ?_, fun h => ?_, fun h => ?_⟩, fun h => ?_⟩
  · simp [h]
  · simp [h]
  · simp [h]
  · simp [h]
  · have h1 : classify_intent m.content (detect_language m.content) ≠ "cat_products" := by
      rcases h with h | h <;> rw [h] <;> decide
    have h2 : classify_intent m.content (detect_language m.content) ≠ "dog_products" := by
      rcases h with h | h <;> rw [h] <;> decide
    have h3 : classify_intent m.content (detect_language m.content) ≠ "business" := by
      rcases h with h | h <;> rw [h] <;> decide
    have h4 : classify_intent m.content (detect_language m.content) ≠ "contact" := by
      rcases h with h | h <;> rw [h] <;> decide
    simp only [if_neg h1, if_neg h2, if_neg h3, if_neg h4, if_pos h]
    refine ⟨?_, fun hoff => ?_, fun hon => ?_⟩
    · repeat first
        | rfl
        | split
    · simp [hoff]
    · simp [hon]
      split
      · norm_num
      · split
        · norm_num
        · split <;> norm_num

/-- Witness for C1 amended: with the LLM available, "contact please"
(contact intent) is answered rule-based with zero LLM invocations,
while "what do you sell" (product-search intent) invokes the LLM. -/
theorem chatbot_routing_c1_amended_witness :
    chatbot_node env_llm_on fallback_cache_doc
        ⟨[⟨.human, "contact please", none⟩], "vi", none⟩ =
      ⟨.update [⟨.ai, get_contact_info_text "en", none⟩] "en", 0, none⟩ ∧
    1 ≤ (chatbot_node env_llm_on fallback_cache_doc
        ⟨[⟨.human, "what do you sell", none⟩], "vi", none⟩).llm_invocations :=
  ⟨(chatbot_routing_c1_amended env_llm_on fallback_cache_doc
      ⟨[⟨.human, "contact please", none⟩], "vi", none⟩
      ⟨.human, "contact please", none⟩ rfl rfl rfl).1.2.2.2 (by decide),
   ((chatbot_routing_c1_amended env_llm_on fallback_cache_doc
      ⟨[⟨.human, "what do you sell", none⟩], "vi", none⟩
      ⟨.human, "what do you sell", none⟩ rfl rfl rfl).2 (by decide)).2.2 rfl⟩

end LunPetShop
